import Mathlib

/-!
Shallow embedding of the web-search-to-structured-data extraction pipeline of
src/simple_ai_app.py (module constants and class HealthcareResearchAgent).
Python strings are embedded as lists of characters, Python floats as rationals
(every numeric literal the pipeline manipulates in the verified claims is
exactly representable), Python lists as Lean lists, and Python dictionaries in
insertion order as association lists.  Network fetching and HTML parsing are
passed in explicitly as oracle functions, and Python exceptions are embedded
as values of an explicit exception type threaded through the Except monad.
-/

set_option allowUnsafeReducibility true

attribute [semireducible] Rat.add Rat.mul Rat.sub Rat.inv Rat.ofScientific Rat.div

namespace SimpleAiApp

/-- Python str embedded as a list of characters. -/
abbrev Str := List Char

/-- Embedding of str.lower.  The texts the program manipulates are ASCII, where
Char.toLower agrees with Python str.lower. -/
def lowerStr (s : Str) : Str := s.map Char.toLower

/-- Embedding of the Python substring test `needle in hay`. -/
def subStr (needle hay : Str) : Bool := decide (needle <:+: hay)

/-- Conversion from a Lean string literal to the character-list embedding. -/
def str (s : String) : Str := s.toList

/-- KEY_STATISTICS (src/simple_ai_app.py lines 71-88): the 16 statistic
keywords searched per country. -/
def KEY_STATISTICS : List Str :=
  [ str "population"
  , str "total population"
  , str "infected population"
  , str "disease incidence"
  , str "disease prevalence"
  , str "demographic distribution"
  , str "age distribution"
  , str "sex distribution"
  , str "gender distribution"
  , str "geographic distribution"
  , str "urban population"
  , str "rural population"
  , str "mortality rate"
  , str "life expectancy"
  , str "healthcare facilities"
  , str "physician density" ]

/-- DATA_SOURCES (lines 91-94): a dict mapping engine keys to display names.
Iterating it in Python yields the keys in insertion order. -/
def DATA_SOURCES : List (Str × Str) :=
  [ (str "google", str "Google Search")
  , (str "duckduckgo", str "DuckDuckGo") ]

/-- STATISTICS_CATEGORIES (lines 97-103): the five fixed categories, each with
its list of statistic keywords, in insertion order. -/
def STATISTICS_CATEGORIES : List (Str × List Str) :=
  [ (str "population_stats",
      [str "population", str "total population", str "population density"])
  , (str "disease_stats",
      [str "infected population", str "disease incidence",
       str "disease prevalence", str "mortality rate"])
  , (str "demographic_stats",
      [str "demographic distribution", str "age distribution",
       str "sex distribution", str "gender distribution"])
  , (str "geographic_stats",
      [str "geographic distribution", str "urban population",
       str "rural population"])
  , (str "healthcare_stats",
      [str "healthcare facilities", str "physician density",
       str "life expectancy"]) ]

/-- NumericFact (spec section 3): one number extracted from text.  `value` is
the parsed Python float as a rational, `is_percent` records the presence of a
percent sign in the matched span, `context` is the slice of up to 30 characters
of context on each side of the match. -/
structure NumericFact where
  value : ℚ
  is_percent : Bool
  context : Str
deriving DecidableEq, Repr

/-- Length of the leading run of ASCII digits, the embedding of a greedy
`\d+` or `\d{1,3}` step of the numeric regex. -/
def digitRun (t : Str) : Nat := (t.takeWhile Char.isDigit).length

/-- Total length consumed by the maximal repetition `(?:,\d{3})+` at the head
of `t` (0 when no full comma group is present). -/
def commaGroupsLen : Str → Nat
  | c :: d1 :: d2 :: d3 :: rest =>
      if c = ',' ∧ d1.isDigit ∧ d2.isDigit ∧ d3.isDigit then
        4 + commaGroupsLen rest
      else 0
  | _ => 0

/-- One backtracking attempt of `\d{1,3}(?:,\d{3})+` that binds exactly `k`
leading digits; returns the consumed length on success. -/
def grpAlt (t : Str) (k : Nat) : Option Nat :=
  if k ≤ t.length ∧ (t.take k).all Char.isDigit then
    let g := commaGroupsLen (t.drop k)
    if g = 0 then none else some (k + g)
  else none

/-- The first alternative `\d{1,3}(?:,\d{3})+` of the numeric regex with its
greedy backtracking order (3, then 2, then 1 leading digits). -/
def commaAlt (t : Str) : Option Nat :=
  (grpAlt t 3).orElse (fun _ => (grpAlt t 2).orElse (fun _ => grpAlt t 1))

/-- Python regex whitespace class `\s` over the ASCII range. -/
def isPySpace (c : Char) : Bool :=
  c = ' ' ∨ c = '\t' ∨ c = '\n' ∨ c = '\r' ∨ c = Char.ofNat 12 ∨ c = Char.ofNat 11

/-- Length of the match of `(\d{1,3}(?:,\d{3})+|\d+)(?:\.\d+)?(?:\s*%)?`
anchored at the head of `t` (line 519), or none.  The alternation prefers the
comma form, the optional groups are greedy and never force backtracking into
the integer part. -/
def matchLen (t : Str) : Option Nat :=
  let base := match commaAlt t with
    | some n => some n
    | none => let r := digitRun t; if r = 0 then none else some r
  match base with
  | none => none
  | some n =>
      let u := t.drop n
      let n1 := if u.head? = some '.' ∧ 0 < digitRun u.tail
        then n + 1 + digitRun u.tail else n
      let v := t.drop n1
      let sp := (v.takeWhile isPySpace).length
      let n2 := if (v.drop sp).head? = some '%' then n1 + sp + 1 else n1
      some n2

/-- Worklist of `re.finditer`: scan left to right, emit each non-overlapping
match span `(start, stop)`, resume after the end of a match.  The fuel is an
upper bound on the number of steps; every step advances the position. -/
def findSpansGo (s : Str) : Nat → Nat → List (Nat × Nat)
  | 0, _ => []
  | fuel + 1, i =>
      if s.length ≤ i then []
      else match matchLen (s.drop i) with
        | some n => (i, i + n) :: findSpansGo s fuel (i + n)
        | none => findSpansGo s fuel (i + 1)

/-- All match spans of the numeric regex in `s`, in order. -/
def findSpans (s : Str) : List (Nat × Nat) := findSpansGo s (s.length + 1) 0

/-- Digit string to natural number. -/
def digitsToNat (l : Str) : Nat := l.foldl (fun a c => 10 * a + (c.toNat - 48)) 0

/-- Embedding of Python float() restricted to the shapes the regex can
produce: optional surrounding whitespace around digits with an optional
fractional part.  Parsing is exact over the rationals. -/
def pyFloat (t : Str) : Option ℚ :=
  let u := ((t.dropWhile isPySpace).reverse.dropWhile isPySpace).reverse
  let ip := u.takeWhile Char.isDigit
  let rest := u.drop ip.length
  if rest = [] then
    if ip = [] then none else some (digitsToNat ip)
  else if rest.head? = some '.' then
    let fp := rest.tail
    if fp ≠ [] ∧ fp.all Char.isDigit then
      some ((digitsToNat ip : ℚ) + (digitsToNat fp : ℚ) / (10 : ℚ) ^ fp.length)
    else none
  else none

/-- HealthcareResearchAgent.extract_numerical_data (lines 515-538): for each
regex match, strip commas, record and strip a percent sign, parse the float,
and keep 30 characters of context on each side; a failed parse is skipped. -/
def extract_numerical_data (text : Str) : List NumericFact :=
  (findSpans text).filterMap (fun sp =>
    let s := sp.1
    let e := sp.2
    let span := (text.drop s).take (e - s)
    let noComma := span.filter (fun c => ¬ c = ',')
    let isPct := noComma.any (fun c => c = '%')
    let numStr := noComma.filter (fun c => ¬ c = '%')
    match pyFloat numStr with
    | some v => some ⟨v, isPct, (text.drop (s - 30)).take (min text.length (e + 30) - (s - 30))⟩
    | none => none)

/-- The synonym table local to get_synonyms (lines 564-570), in insertion
order. -/
def synonymsTable : List (Str × List Str) :=
  [ (str "population",
      [str "populace", str "inhabitants", str "residents", str "people", str "citizens"])
  , (str "mortality",
      [str "death rate", str "fatality", str "deaths", str "deceased"])
  , (str "prevalence",
      [str "occurrence", str "frequency", str "commonness", str "rate"])
  , (str "incidence",
      [str "rate", str "occurrence", str "frequency", str "cases"])
  , (str "healthcare",
      [str "health care", str "medical care", str "health services"]) ]

/-- HealthcareResearchAgent.get_synonyms (lines 561-577): the values of the
first table key that is a substring of the lowercased term, else []. -/
def get_synonyms (term : Str) : List Str :=
  match synonymsTable.find? (fun kv => subStr kv.1 (lowerStr term)) with
  | some kv => kv.2
  | none => []

/-- HealthcareResearchAgent.analyze_text_relevance (lines 540-559): empty text
is irrelevant; containment of the lowercased statistic scores 1.0, else a
synonym containment scores 0.7, else 0.0; numbers are extracted only when
relevant. -/
def analyze_text_relevance (text statistic : Str) : Bool × ℚ × List NumericFact :=
  if text = [] then (false, 0, [])
  else
    let rs :=
      if subStr (lowerStr statistic) (lowerStr text) then (true, (1 : ℚ))
      else if (get_synonyms statistic).any (fun syn => subStr syn (lowerStr text)) then
        (true, (7 / 10 : ℚ))
      else (false, (0 : ℚ))
    (rs.1, rs.2, if rs.1 then extract_numerical_data text else [])

/-- One value stored in the untyped `numbers` list of a DataPoint.  The source
is dynamically typed there: text-derived points store NumericFact dictionaries
(lines 606, 634, 781, 884), while table-derived points store raw cell strings
(lines 675 and 851). -/
inductive NumEntry where
  | fact : NumericFact → NumEntry
  | cell : Str → NumEntry
deriving DecidableEq, Repr

/-- SearchResult (spec section 3): one parsed search-engine result. -/
structure SearchResult where
  title : Str
  url : Str
  snippet : Str
  source : Str
deriving DecidableEq, Repr

/-- One cell of a parsed HTML table row: a th or td element and its stripped
text. -/
structure Cell where
  isTh : Bool
  text : Str
deriving DecidableEq, Repr

/-- A parsed HTML table: its tr elements in document order, each a list of its
cells in document order. -/
structure HtmlTable where
  rows : List (List Cell)
deriving DecidableEq, Repr

/-- A fetched and parsed page, abstracting the BeautifulSoup tree: the
stripped texts of the elements visited by find_all on tag names, and the
tables returned by find_all on table, in document order. -/
structure Page where
  elements : List Str
  tables : List HtmlTable
deriving DecidableEq, Repr

/-- DataPoint (spec section 3): one piece of evidence for a statistic.  The
three table fields are present only on table hits, embedded here with the
defaults that `dict.get(key, default)` supplies at the flatten step. -/
structure DataPoint where
  text : Str
  numbers : List NumEntry
  source : Str
  url : Str
  relevance_score : ℚ
  has_temporal_data : Bool
  has_comparison : Bool
  is_table : Bool := false
  table_headers : List Str := []
  table_rows : List (List Str) := []
deriving DecidableEq, Repr

/-- Python regex word-character class `\w` over the ASCII range, used by the
word-boundary `\b`. -/
def isWordChar (c : Char) : Bool := c.isAlphanum || c == '_'

/-- Whether a character position is a word boundary against the adjacent
character (none at the ends of the text). -/
def boundaryOk : Option Char → Bool
  | none => true
  | some p => ! isWordChar p

/-- Whether `\b20\d{2}\b` matches exactly at the head of the list, `prev`
being the character immediately before the head. -/
def yearHere (prev : Option Char) : Str → Bool
  | c1 :: c2 :: c3 :: c4 :: rest =>
      c1 == '2' && c2 == '0' && c3.isDigit && c4.isDigit &&
        boundaryOk prev && boundaryOk rest.head?
  | _ => false

/-- Left-to-right scan for `\b20\d{2}\b`, carrying the previous character for
the left boundary test. -/
def yearSearch (prev : Option Char) : Str → Bool
  | [] => false
  | c :: rest => yearHere prev (c :: rest) || yearSearch (some c) rest

/-- Embedding of `bool(re.search(r'\b20\d{2}\b', s))` (lines 610, 638, 679,
785, 855, 888). -/
def hasYearToken (s : Str) : Bool := yearSearch none s

/-- The comparison keyword list of lines 611-612 (also 639-640, 889). -/
def comparisonWords : List Str :=
  [str "increase", str "decrease", str "higher", str "lower", str "compared"]

/-- Embedding of `any(word in text.lower() for word in [...])`. -/
def hasComparison (s : Str) : Bool := comparisonWords.any (fun w => subStr w (lowerStr s))

/-- The texts of all cells of a tr, td and th alike (lines 666-668). -/
def cellTexts (r : List Cell) : List Str := r.map (·.text)

/-- Header resolution of the table harvester (lines 647-655): the texts of all
th cells of the table; if there are none, the td texts of the first tr. -/
def tableHeaders (t : HtmlTable) : List Str :=
  let ths := (t.rows.flatten.filter (·.isTh)).map (·.text)
  if ths ≠ [] then ths
  else
    match t.rows.head? with
    | some firstRow => (firstRow.filter (fun c => ! c.isTh)).map (·.text)
    | none => []

/-- Embedding of `' '.join`. -/
def joinSpace (l : List Str) : Str :=
  match l with
  | [] => []
  | h :: t => t.foldl (fun a s => a ++ [' '] ++ s) h

/-- The table harvesting step of extract_data_from_search_results (lines
645-685) for one table: resolve headers, reject headerless tables, accept the
table when the joined lowercase header text contains the statistic or the
country, and collect the rows.  At line 665 the header-bearing branch
`find_all('tr')[1:]` is taken whenever `headers` is non-empty, which at that
point is always, so the first tr is dropped even when the headers were
borrowed from it. -/
def harvestTable (statistic country resTitle url : Str) (t : HtmlTable) : Option DataPoint :=
  let headers := tableHeaders t
  if headers = [] then none
  else
    let headerText := lowerStr (joinSpace headers)
    if subStr (lowerStr statistic) headerText || subStr (lowerStr country) headerText then
      let trs := if headers ≠ [] then t.rows.tail else t.rows
      let rows := (trs.map cellTexts).filter (fun r => r ≠ [])
      if rows ≠ [] then
        some { text := str "Table data for " ++ statistic ++ str " from " ++ resTitle
             , numbers := (rows.flatten.filter (fun cell => extract_numerical_data cell ≠ [])).map NumEntry.cell
             , source := str "Web Table: " ++ resTitle
             , url := url
             , relevance_score := 2
             , has_temporal_data := rows.any (fun row => hasYearToken (joinSpace row))
             , has_comparison := false
             , is_table := true
             , table_headers := headers
             , table_rows := rows }
      else none
    else none

/-- The page-content scan of extract_data_from_search_results (lines 625-642):
for each element text containing both the statistic and the country, a score
2.0 data point when numbers are found. -/
def pageElementPoints (statistic country resTitle url : Str) (elements : List Str) : List DataPoint :=
  elements.filterMap (fun elementText =>
    if subStr (lowerStr statistic) (lowerStr elementText) &&
        subStr (lowerStr country) (lowerStr elementText) then
      let elementNumbers := extract_numerical_data elementText
      if elementNumbers ≠ [] then
        some { text := elementText
             , numbers := elementNumbers.map NumEntry.fact
             , source := str "Web Page: " ++ resTitle
             , url := url
             , relevance_score := 2
             , has_temporal_data := hasYearToken elementText
             , has_comparison := hasComparison elementText }
      else none
    else none)

/-- Oracle for the deep fetch of a result URL: the parsed page, or none when
the request or parsing raised (caught at lines 687-689). -/
abbrev FetchOracle := Str → Option Page

/-- The per-result body of extract_data_from_search_results (lines 586-692):
score title and snippet, keep the result when either is relevant, add the 0.5
country bonus, then deep-fetch the result URL and harvest page text and
tables.  A failing fetch is caught (line 687) and contributes nothing; the
whole body is also wrapped per result (line 690), and in this embedding every
remaining operation is total. -/
def resultDataPoints (fetch : FetchOracle) (statistic country : Str) (result : SearchResult) : List DataPoint :=
  let ta := analyze_text_relevance result.title statistic
  let sa := analyze_text_relevance result.snippet statistic
  if ta.1 || sa.1 then
    let score0 := max ta.2.1 sa.2.1
    let combined := result.title ++ str " - " ++ result.snippet
    let numbers := if ta.2.2 ≠ [] ∨ sa.2.2 ≠ [] then ta.2.2 ++ sa.2.2 else []
    let score := if subStr (lowerStr country) (lowerStr combined) then score0 + 1 / 2 else score0
    let dp : DataPoint :=
      { text := combined
      , numbers := numbers.map NumEntry.fact
      , source := result.source
      , url := result.url
      , relevance_score := score
      , has_temporal_data := hasYearToken combined
      , has_comparison := hasComparison combined }
    let pagePoints :=
      if result.url ≠ [] then
        match fetch result.url with
        | some page =>
            pageElementPoints statistic country result.title result.url page.elements ++
              page.tables.filterMap (harvestTable statistic country result.title result.url)
        | none => []
      else []
    dp :: pagePoints
  else []

/-- HealthcareResearchAgent.extract_data_from_search_results (lines 579-694).
An empty result list yields no data points, and each result is processed
independently. -/
def extract_data_from_search_results (fetch : FetchOracle) (results : List SearchResult) (statistic country : Str) : List DataPoint :=
  results.flatMap (resultDataPoints fetch statistic country)

/-- The country_data dict built by search_country_data (lines 699-703):
country name, run timestamp, and the category to statistic to data-point
nesting, all in insertion order. -/
structure CountryData where
  country : Str
  timestamp : Str
  data : List (Str × List (Str × List DataPoint))
deriving DecidableEq, Repr

/-- StructuredEntry (spec section 3): one flattened, export-ready row. -/
structure StructuredEntry where
  country : Str
  category : Str
  indicator : Str
  description : Str
  numerical_values : List NumEntry
  primary_value : Option NumEntry
  source : Str
  url : Str
  relevance_score : ℚ
  has_temporal_data : Bool
  has_comparison : Bool
  timestamp : Str
  is_data_resource : Bool
  resource_type : Str
  is_table : Bool
  table_headers : List Str
  table_rows : List (List Str)
deriving DecidableEq, Repr

/-- One entry of the flatten step (lines 911-932).  `primary_value` embeds
`data_point['numbers'][0] if data_point['numbers'] else None` as `head?`, and
the table fields embed `data_point.get(key, default)`. -/
def mkStructuredEntry (country timestamp category statistic : Str) (dp : DataPoint) : StructuredEntry :=
  { country := country
  , category := category
  , indicator := statistic
  , description := dp.text
  , numerical_values := dp.numbers
  , primary_value := dp.numbers.head?
  , source := dp.source
  , url := dp.url
  , relevance_score := dp.relevance_score
  , has_temporal_data := dp.has_temporal_data
  , has_comparison := dp.has_comparison
  , timestamp := timestamp
  , is_data_resource := false
  , resource_type := []
  , is_table := dp.is_table
  , table_headers := if dp.is_table then dp.table_headers else []
  , table_rows := if dp.is_table then dp.table_rows else [] }

/-- The flatten step of search_country_data (lines 906-934): iterate the
category, statistic and data-point nesting in insertion order and emit one
StructuredEntry per data point. -/
def flattenStructured (cd : CountryData) : List StructuredEntry :=
  cd.data.flatMap (fun cs =>
    cs.2.flatMap (fun sd =>
      sd.2.map (mkStructuredEntry cd.country cd.timestamp cs.1 sd.1)))

/-- One record of key_findings: the three columns kept by line 969. -/
structure KeyFinding where
  category : Str
  indicator : Str
  description : Str
deriving DecidableEq, Repr

/-- The data_quality sub-dictionary of the summary (lines 950-954, 961-965). -/
structure DataQuality where
  temporal_data_percentage : ℚ
  comparison_data_percentage : ℚ
  numerical_data_percentage : ℚ
deriving DecidableEq, Repr

/-- CountrySummary (spec section 3). -/
structure CountrySummary where
  total_indicators_found : Nat
  categories_coverage : List (Str × Nat)
  key_findings : List KeyFinding
  data_quality : DataQuality
deriving DecidableEq, Repr

/-- Code-point lexicographic comparison of strings, the Python str order that
pandas groupby uses when sorting group keys. -/
def strLe : Str → Str → Bool
  | [], _ => true
  | _ :: _, [] => false
  | a :: as, b :: bs =>
      if a.toNat < b.toNat then true
      else if b.toNat < a.toNat then false
      else strLe as bs

/-- The group-key order of the coverage dict as a relation. -/
def catOrd : Str → Str → Prop := fun a b => strLe a b = true

instance : DecidableRel catOrd := fun a b => inferInstanceAs (Decidable (strLe a b = true))

/-- Descending relevance-score order used for key findings (line 968,
sort_values with ascending=False). -/
def scoreGe : StructuredEntry → StructuredEntry → Prop :=
  fun a b => b.relevance_score ≤ a.relevance_score

instance : DecidableRel scoreGe :=
  fun a b => inferInstanceAs (Decidable (b.relevance_score ≤ a.relevance_score))

instance : IsTotal StructuredEntry scoreGe :=
  ⟨fun a b => le_total b.relevance_score a.relevance_score⟩

instance : IsTrans StructuredEntry scoreGe :=
  ⟨fun _ _ _ hab hbc => le_trans hbc hab⟩

/-- HealthcareResearchAgent.create_country_summary (lines 944-971).  On the
empty dataset the initial summary dict is returned unchanged.  Otherwise:
coverage is the per-category row count with the sorted group keys of pandas
groupby; the quality percentages are the three boolean shares; key_findings
projects category, indicator and description of the first five rows with
relevance_score strictly above 1.5 sorted by descending score.  The pandas
default sort does not document tie order; this embedding uses a stable sort,
so ties keep their prior sequence order. -/
def create_country_summary (structured_data : List StructuredEntry) : CountrySummary :=
  if structured_data = [] then
    { total_indicators_found := 0
    , categories_coverage := []
    , key_findings := []
    , data_quality := ⟨0, 0, 0⟩ }
  else
    let n : ℚ := structured_data.length
    let catList := structured_data.map (·.category)
    let coverage := (List.insertionSort catOrd catList.dedup).map (fun c => (c, catList.count c))
    let highRel := structured_data.filter (fun e => decide ((3 / 2 : ℚ) < e.relevance_score))
    let sorted := List.insertionSort scoreGe highRel
    { total_indicators_found := structured_data.length
    , categories_coverage := coverage
    , key_findings := (sorted.take 5).map (fun e => ⟨e.category, e.indicator, e.description⟩)
    , data_quality :=
        ⟨(structured_data.countP (·.has_temporal_data) : ℚ) / n * 100
        , (structured_data.countP (·.has_comparison) : ℚ) / n * 100
        , (structured_data.countP (fun e => ! e.numerical_values.isEmpty) : ℚ) / n * 100⟩ }

/-- A raised Python exception: requests.RequestException (caught by the
narrow handlers at lines 791 and 897) or any other exception class, carrying
its str rendering. -/
inductive PyExc where
  | requestExc : Str → PyExc
  | otherExc : Str → PyExc
deriving DecidableEq, Repr

/-- The message of an exception, for `str(e)` in handlers. -/
def pyExcStr : PyExc → Str
  | .requestExc m => m
  | .otherExc m => m

/-- Python control flow with exceptions. -/
abbrev PyM := Except PyExc

/-- Model of reading the attribute `self.stat_to_category` (lines 724, 845 and
879).  The attribute is never assigned anywhere in src/simple_ai_app.py, so
every access raises AttributeError.  The value type is what the defensive
`.get(statistic, 'population_stats')` call sites expect: a statistic-to-
category dict. -/
def statToCategoryAttr : PyM (List (Str × Str)) :=
  .error (.otherExc (str "AttributeError: stat_to_category"))

/-- Model of subscripting a Python str with a string key.  This happens at
lines 753, 756, 782, 796, 804-805, 852 and 902 because self.data_sources is
the DATA_SOURCES dict of engine-name strings, so iterating it yields plain
strings: the subscript always raises TypeError.  The result type is phantom
(never produced). -/
def pyStrSubscript (α : Type) (_s _key : Str) : PyM α :=
  .error (.otherExc (str "TypeError: string indices must be integers"))

/-- Embedding of `dict.get(key, default)` on a string-valued dict. -/
def dictGetD (d : List (Str × Str)) (k dflt : Str) : Str :=
  match d.find? (fun kv => kv.1 == k) with
  | some kv => kv.2
  | none => dflt

/-- Insertion into the nested findings dict (lines 740-743, 776-777, 789,
862-864, 892-894): ensure the statistic key exists under the category, in
insertion order, then extend its data-point list. -/
def dataInsert (data : List (Str × List (Str × List DataPoint))) (category statistic : Str) (dps : List DataPoint) : List (Str × List (Str × List DataPoint)) :=
  data.map (fun cs =>
    if cs.1 == category then
      (cs.1,
        if cs.2.any (fun sd => sd.1 == statistic) then
          cs.2.map (fun sd => if sd.1 == statistic then (sd.1, sd.2 ++ dps) else sd)
        else cs.2 ++ [(statistic, dps)])
    else cs)

/-- The effectful collaborators of search_country_data, passed explicitly:
the search-engine query (engine and query to parsed results, none when the
request or parsing raised inside search_web), the deep fetch of a search
result URL, and the fetch of a data-source URL (none when requests raised). -/
structure Oracles where
  searchWeb : Str → Str → Option (List SearchResult)
  fetchPage : FetchOracle
  fetchSource : Str → Option Page

/-- HealthcareResearchAgent.search_web (lines 427-513): the network fetch and
the engine-specific selector parsing are abstracted as an oracle; the
function-wide try/except returns [] on any failure, and an engine matching
neither branch returns the initial empty list. -/
def search_web (o : Oracles) (query engine : Str) : List SearchResult :=
  if lowerStr engine = str "google" ∨ lowerStr engine = str "duckduckgo" then
    match o.searchWeb engine query with
    | some rs => rs
    | none => []
  else []

/-- The engine alternation of line 727. -/
def flipEngine (e : Str) : Str :=
  if e = str "duckduckgo" then str "google" else str "duckduckgo"

/-- The mutable state of the search_country_data run: the nested findings
dict, the found_statistics set (as its insertion sequence), and the current
engine. -/
structure RunState where
  data : List (Str × List (Str × List DataPoint))
  found : List Str
  engine : Str
deriving Repr

/-- Embedding of `try: body except Exception: pass-with-continue`, keeping
the pre-body state on any exception. -/
def caught {σ : Type} (st : σ) (body : PyM σ) : σ :=
  match body with
  | .ok s => s
  | .error _ => st

/-- Embedding of `try: body except requests.RequestException: continue`: only
request exceptions are swallowed, anything else keeps propagating. -/
def caughtReq {σ : Type} (st : σ) (body : PyM σ) : PyM σ :=
  match body with
  | .ok s => .ok s
  | .error (.requestExc _) => .ok st
  | .error e => .error e

/-- Fetching a URL in the source-scanning phases; a failing fetch raises a
request exception. -/
def fetchSourceM (o : Oracles) (url : Str) : PyM Page :=
  match o.fetchSource url with
  | some p => pure p
  | none => .error (.requestExc (str "request failed"))

/-- One iteration of the per-statistic search loop (lines 718-747).  A found
statistic is skipped; otherwise the category lookup at line 724 reads the
missing stat_to_category attribute (raising AttributeError), then the engine
flips, the query is built, results are searched and mined, and non-empty
findings are stored and the statistic marked found.  The rate-limit sleep is
timing only and has no embedding. -/
def phase1Step (o : Oracles) (country : Str) (st : RunState) (statistic : Str) : PyM RunState :=
  if st.found.contains statistic then pure st
  else do
    let s2c ← statToCategoryAttr
    let category := dictGetD s2c statistic (str "population_stats")
    let engine := flipEngine st.engine
    let query := country ++ str " " ++ statistic ++ str " statistics data"
    let results := search_web o query engine
    let dps := extract_data_from_search_results o.fetchPage results statistic country
    if dps ≠ [] then
      pure { data := dataInsert st.data category statistic dps
           , found := st.found ++ [statistic]
           , engine := engine }
    else
      pure { st with engine := engine }

/-- The format call `source['url_template'].format(country=country_code)`:
replace every occurrence of the country placeholder. -/
def countryPlaceholder : Str := (Char.ofNat 123 :: str "country") ++ [Char.ofNat 125]

/-- Whether `pat` is an initial segment of `s`. -/
def startsWith : Str → Str → Bool
  | [], _ => true
  | _ :: _, [] => false
  | p :: ps, c :: cs => p == c && startsWith ps cs

/-- Replace every occurrence of `pat` by `rep`, scanning left to right. -/
def replaceSub : Nat → Str → Str → Str → Str
  | 0, _, _, s => s
  | _ + 1, _, _, [] => []
  | fuel + 1, pat, rep, c :: cs =>
      if pat ≠ [] ∧ startsWith pat (c :: cs) then
        rep ++ replaceSub fuel pat rep ((c :: cs).drop pat.length)
      else c :: replaceSub fuel pat rep cs

/-- str.format with the single country keyword. -/
def pyFormatCountry (template slug : Str) : Str :=
  replaceSub (template.length + 1) countryPlaceholder slug template

/-- The population statistics probed by the primary-source scan (line 771). -/
def popStatsList : List Str :=
  [str "population", str "population density", str "total population"]

/-- The per-element body of the primary-source scan (lines 767-790): for each
of the three population statistics contained in the lowercased element text
with numbers present, store a score 2.0 data point under population_stats and
mark the statistic found. -/
def popScanElement (srcName baseUrl : Str) (st : RunState) (text : Str) : RunState :=
  popStatsList.foldl (fun st statistic =>
    if subStr statistic (lowerStr text) then
      let numbers := extract_numerical_data text
      if numbers ≠ [] then
        { data := dataInsert st.data (str "population_stats") statistic
            [{ text := text
             , numbers := numbers.map NumEntry.fact
             , source := srcName
             , url := baseUrl
             , relevance_score := 2
             , has_temporal_data := hasYearToken text
             , has_comparison := false }]
        , found := if st.found.contains statistic then st.found else st.found ++ [statistic]
        , engine := st.engine }
      else st
    else st) st

/-- The primary-source phase (lines 750-797).  Line 753 filters
self.data_sources by `'Population' in s['name']`; since the iterated values
are the plain string keys of DATA_SOURCES, the first subscript raises
TypeError before any per-source try begins, and that exception propagates to
the whole-function handler.  The per-source loop that would follow catches
all exceptions per source, with an inner handler for request errors only. -/
def phase2 (o : Oracles) (countryCode : Str) (st0 : RunState) : PyM RunState := do
  let popSources ← DATA_SOURCES.foldlM (fun (acc : List Str) kv => do
      let nm ← pyStrSubscript Str kv.1 (str "name")
      pure (if subStr (str "Population") nm then acc ++ [kv.1] else acc)) ([] : List Str)
  let st := popSources.foldl (fun st src =>
      caught st (do
        let urlTemplate ← pyStrSubscript Str src (str "url_template")
        let srcName ← pyStrSubscript Str src (str "name")
        let baseUrl := pyFormatCountry urlTemplate countryCode
        caughtReq st (do
          let page ← fetchSourceM o baseUrl
          pure (page.elements.foldl (popScanElement srcName baseUrl) st)))) st0
  pure st

/-- The per-table body of the secondary-source scan (lines 818-864): only th
headers count here (no borrowing), every tr is kept as a row including any
header row, the first statistic contained in the joined lowercase header text
selects the category through the missing stat_to_category attribute (line
845, AttributeError), and the numbers list takes the second cell of every row
with at least two cells, as raw strings. -/
def phase3Table (srcName url : Str) (st : RunState) (t : HtmlTable) : PyM RunState :=
  let headers := (t.rows.flatten.filter (·.isTh)).map (·.text)
  if headers = [] then pure st
  else
    let rows := (t.rows.map cellTexts).filter (fun r => r ≠ [])
    if rows ≠ [] then
      let headerText := lowerStr (joinSpace headers)
      match KEY_STATISTICS.find? (fun stat => subStr stat headerText) with
      | some bestStat => do
          let s2c ← statToCategoryAttr
          let bestCategory := dictGetD s2c bestStat (str "population_stats")
          let dp : DataPoint :=
            { text := str "Table data for " ++ bestStat
            , numbers := (rows.filterMap (fun row => row.get? 1)).map NumEntry.cell
            , source := srcName
            , url := url
            , relevance_score := 9 / 5
            , has_temporal_data := rows.any (fun row => hasYearToken (joinSpace row))
            , has_comparison := false
            , is_table := true
            , table_headers := headers
            , table_rows := rows }
          pure { st with data := dataInsert st.data bestCategory bestStat [dp] }
      | none => pure st
    else pure st

/-- The per-element body of the secondary-source scan (lines 867-895): for
each not-yet-found statistic relevant to the text with score strictly above
1.0, store a data point under the category obtained through the missing
stat_to_category attribute (line 879, AttributeError) and mark the statistic
found. -/
def phase3Element (srcName url : Str) (st : RunState) (text : Str) : PyM RunState :=
  KEY_STATISTICS.foldlM (fun st statistic =>
    if st.found.contains statistic then pure st
    else
      let a := analyze_text_relevance text statistic
      if a.1 ∧ 1 < a.2.1 then do
        let s2c ← statToCategoryAttr
        let category := dictGetD s2c statistic (str "population_stats")
        let dp : DataPoint :=
          { text := text
          , numbers := a.2.2.map NumEntry.fact
          , source := srcName
          , url := url
          , relevance_score := a.2.1
          , has_temporal_data := hasYearToken text
          , has_comparison := hasComparison text }
        pure { st with
               data := dataInsert st.data category statistic [dp]
             , found := st.found ++ [statistic] }
      else pure st) st

/-- One URL of the secondary-source scan (lines 807-899): fetch, scan tables,
then scan text elements; only request exceptions are caught here. -/
def phase3PerUrl (o : Oracles) (srcName : Str) (st : RunState) (url : Str) : PyM RunState := do
  let page ← fetchSourceM o url
  let st1 ← page.tables.foldlM (phase3Table srcName url) st
  page.elements.foldlM (phase3Element srcName url) st1

/-- One source of the secondary-source phase (lines 802-903): the string
subscripts of lines 804-805 raise TypeError inside the per-source handler,
which catches every exception and moves to the next source. -/
def phase3Source (o : Oracles) (countryCode : Str) (st : RunState) (src : Str) : RunState :=
  caught st (do
    let urlTemplate ← pyStrSubscript Str src (str "url_template")
    let srcName ← pyStrSubscript Str src (str "name")
    let dataPaths ← pyStrSubscript (List Str) src (str "data_paths")
    let baseUrl := pyFormatCountry urlTemplate countryCode
    let urls := baseUrl :: dataPaths.map (fun p => baseUrl ++ str "/" ++ p)
    urls.foldlM (fun st url => caughtReq st (phase3PerUrl o srcName st url)) st)

/-- HealthcareResearchAgent.search_country_data (lines 696-942).  The whole
body sits in one try; any escaping exception is rendered at line 942 as the
error string.  `startEngine` embeds the random.choice of line 715 and
`timestamp` the datetime.now of line 701.  On the code as written the first
iteration of the statistic loop reads the missing stat_to_category attribute,
so the run always takes the error branch. -/
def search_country_data (o : Oracles) (startEngine timestamp country : Str) : Except Str (List StructuredEntry × CountrySummary) :=
  let body : PyM (List StructuredEntry × CountrySummary) := do
    let data0 := STATISTICS_CATEGORIES.map (fun cs => (cs.1, ([] : List (Str × List DataPoint))))
    let countryCode := (lowerStr country).map (fun c => if c = ' ' then '-' else c)
    let st0 : RunState := { data := data0, found := [], engine := startEngine }
    let st1 ← KEY_STATISTICS.foldlM (phase1Step o country) st0
    let st2 ← phase2 o countryCode st1
    let st3 := DATA_SOURCES.foldl (fun st kv => phase3Source o countryCode st kv.1) st2
    let cd : CountryData := { country := country, timestamp := timestamp, data := st3.data }
    let structured := flattenStructured cd
    pure (structured, create_country_summary structured)
  match body with
  | .ok v => .ok v
  | .error e => .error (str "Error during research: " ++ pyExcStr e)

/-- Whether an optional numbers entry is a NumericFact record (as opposed to
a raw table-cell string or absent). -/
def isFactEntry : Option NumEntry → Bool
  | some (NumEntry.fact _) => true
  | _ => false

/-- Fixture: a data point with no extracted numbers and relevance score 1.0. -/
def sampleDataPoint : DataPoint :=
  { text := str "only finding"
  , numbers := []
  , source := str "s"
  , url := str "u"
  , relevance_score := 1
  , has_temporal_data := true
  , has_comparison := false }

/-- Fixture: the flattened entry of sampleDataPoint. -/
def sampleEntry : StructuredEntry :=
  mkStructuredEntry (str "France") (str "T") (str "population_stats") (str "population") sampleDataPoint

/-- Fixture: a table with no th cells whose first tr doubles as the header
row. -/
def borrowTable : HtmlTable :=
  ⟨[ [⟨false, str "Population"⟩, ⟨false, str "Year"⟩]
   , [⟨false, str "67"⟩, ⟨false, str "2020"⟩] ]⟩

/-- Fixture: a fetch that returns a page whose only content is borrowTable. -/
def borrowFetch : FetchOracle := fun _ => some ⟨[], [borrowTable]⟩

/-- Fixture: a search result with a relevant title and a non-empty URL, so
that the deep fetch and the table harvest run. -/
def borrowResult : SearchResult :=
  ⟨str "france population table", str "http page", [], str "Web"⟩

/-- Fixture: a findings nesting holding the data points mined from
borrowResult, among them the table-derived one. -/
def tableCountryData : CountryData :=
  ⟨str "france", str "T",
    [(str "population_stats",
      [(str "population",
        extract_data_from_search_results borrowFetch [borrowResult] (str "population") (str "france"))])]⟩

/-!  Helper lemmas shared by the claim theorems. -/

/-- Lowercasing distributes over concatenation. -/
theorem lowerStr_append (a b : Str) : lowerStr (a ++ b) = lowerStr a ++ lowerStr b :=
  List.map_append _ a b

/-- A substring of the right part is a substring of a concatenation. -/
theorem sub_of_sub_right (x a b : Str) (h : x <:+: b) : x <:+: a ++ b := by
  rcases h with ⟨s, t, rfl⟩
  exact ⟨a ++ s, t, by simp⟩

/-- The year-token scan succeeds on a concatenation when it succeeds on a
suffix whose preceding character is known. -/
theorem yearSearch_append (a : Str) (p : Option Char) (x : Char) (b : Str)
    (h : yearSearch (some x) b = true) : yearSearch p (a ++ x :: b) = true := by
  induction a generalizing p with
  | nil => simp [yearSearch, h]
  | cons c cs ih => simp [yearSearch, ih (some c)]

/-- Any lawful boolean equality agrees with decidable propositional
equality. -/
theorem beq_decide {α : Type} [BEq α] [LawfulBEq α] [DecidableEq α] (a b : α) :
    (a == b) = decide (a = b) := by
  by_cases h : a = b
  · subst h; simp
  · simp [h]

/-- Instance-stable version of sum_map_count_dedup_eq_length for the
character-list strings of the embedding. -/
theorem sum_count_dedup (l : List Str) :
    (l.dedup.map fun x => l.count x).sum = l.length := by
  have h := List.sum_map_count_dedup_eq_length l
  rw [← h]
  apply congrArg
  apply List.map_congr_left
  intro x _
  simp only [List.count_eq_countP]
  apply List.countP_congr
  intro y _
  simp [beq_iff_eq]

/-- C3: analyze_text_relevance follows the exact-synonym-none rule.  On
non-empty text, containment of the lowercased statistic gives (relevant, 1.0)
with the extracted numbers; otherwise containment of a synonym of the fixed
table gives (relevant, 0.7) with the extracted numbers; otherwise
(not relevant, 0.0, no numbers).  The three scores are monotonically ordered,
numeric facts are returned only when relevant, and empty text yields
(not relevant, 0.0, no numbers). -/
theorem c3_relevance_rule (text statistic : Str) :
    (text ≠ [] → subStr (lowerStr statistic) (lowerStr text) = true →
        analyze_text_relevance text statistic = (true, 1, extract_numerical_data text)) ∧
    (text ≠ [] → subStr (lowerStr statistic) (lowerStr text) = false →
        (get_synonyms statistic).any (fun syn => subStr syn (lowerStr text)) = true →
        analyze_text_relevance text statistic = (true, 7 / 10, extract_numerical_data text)) ∧
    (subStr (lowerStr statistic) (lowerStr text) = false →
        (get_synonyms statistic).any (fun syn => subStr syn (lowerStr text)) = false →
        analyze_text_relevance text statistic = (false, 0, [])) ∧
    ((1 : ℚ) ≥ 7 / 10 ∧ (7 / 10 : ℚ) ≥ 0) ∧
    ((analyze_text_relevance text statistic).1 = false →
        (analyze_text_relevance text statistic).2.2 = []) ∧
    analyze_text_relevance [] statistic = (false, 0, []) := by
  refine ⟨?_, ?_, ?_, ⟨by norm_num, by norm_num⟩, ?_, by simp [analyze_text_relevance]⟩
  · intro hne hsub
    simp [analyze_text_relevance, hne, hsub]
  · intro hne hsub hsyn
    simp [analyze_text_relevance, hne, hsub, hsyn]
  · intro hsub hsyn
    by_cases hne : text = []
    · subst hne; simp [analyze_text_relevance]
    · simp [analyze_text_relevance, hne, hsub, hsyn]
  · intro h
    by_cases hne : text = []
    · subst hne; simp [analyze_text_relevance]
    · by_cases h1 : subStr (lowerStr statistic) (lowerStr text) = true
      · simp [analyze_text_relevance, hne, h1] at h
      · by_cases h2 : (get_synonyms statistic).any (fun syn => subStr syn (lowerStr text)) = true
        · simp [analyze_text_relevance, hne, h1, h2] at h
        · simp [analyze_text_relevance, hne, h1, h2]

/-- Witness for C3 at concrete inputs: an exact match, a synonym match, a
non-match, and the empty text. -/
theorem c3_relevance_rule_witness :
    analyze_text_relevance (str "the population of France") (str "population") =
      (true, 1, extract_numerical_data (str "the population of France")) ∧
    analyze_text_relevance (str "the populace grew") (str "population") =
      (true, 7 / 10, extract_numerical_data (str "the populace grew")) ∧
    analyze_text_relevance (str "nothing here") (str "population") = (false, 0, []) ∧
    analyze_text_relevance [] (str "population") = (false, 0, []) :=
  ⟨(c3_relevance_rule (str "the population of France") (str "population")).1
      (by decide) (by decide),
   (c3_relevance_rule (str "the populace grew") (str "population")).2.1
      (by decide) (by decide) (by decide),
   (c3_relevance_rule (str "nothing here") (str "population")).2.2.1
      (by decide) (by decide),
   (c3_relevance_rule [] (str "population")).2.2.2.2.2⟩

/-- C4: extract_numerical_data on the fixture text yields exactly the two
facts 1234567.0 (not a percentage) and 12.5 (a percentage), in that order,
and yields nothing on digitless text. -/
theorem c4_extract_numbers_examples :
    (extract_numerical_data (str "Population: 1,234,567 (12.5%)")).map
        (fun f => (f.value, f.is_percent)) = [(1234567, false), (12.5, true)] ∧
    extract_numerical_data (str "no digits here") = [] := by
  constructor
  · decide
  · decide

/-- C8 counterexample: the category keyword lists of STATISTICS_CATEGORIES
hold 17 keywords in total, not 16 as claimed. -/
theorem c8_counterexample :
    ((STATISTICS_CATEGORIES.map (fun cs => cs.2.length)).sum = 17) ∧
    ¬ ((STATISTICS_CATEGORIES.map (fun cs => cs.2.length)).sum = 16) := by
  decide

/-- C8 amended: the taxonomy has exactly the five fixed categories; their
keyword lists hold 17 keywords in total (the 16 KEY_STATISTICS plus
population density, which is listed under population_stats but is not a
searched statistic); the lists are pairwise disjoint and every one of the 16
searched statistic keywords belongs to exactly one category list. -/
theorem c8_amended :
    STATISTICS_CATEGORIES.map (fun cs => cs.1) =
      [str "population_stats", str "disease_stats", str "demographic_stats",
       str "geographic_stats", str "healthcare_stats"] ∧
    ((STATISTICS_CATEGORIES.map (fun cs => cs.2.length)).sum = 17) ∧
    KEY_STATISTICS.length = 16 ∧
    (∀ s ∈ KEY_STATISTICS, STATISTICS_CATEGORIES.countP (fun cs => decide (s ∈ cs.2)) = 1) ∧
    (∀ c1 ∈ STATISTICS_CATEGORIES, ∀ c2 ∈ STATISTICS_CATEGORIES,
      c1.1 ≠ c2.1 → ∀ s ∈ c1.2, s ∉ c2.2) ∧
    str "population density" ∈ (STATISTICS_CATEGORIES.flatMap (fun cs => cs.2)) ∧
    str "population density" ∉ KEY_STATISTICS := by
  decide

/-- C9: on every non-empty flattened dataset, the coverage counts of the
summary add up to total_indicators_found, the number of entries. -/
theorem c9_coverage_sum (entries : List StructuredEntry) (h : entries ≠ []) :
    ((create_country_summary entries).categories_coverage.map (fun kv => kv.2)).sum =
      (create_country_summary entries).total_indicators_found := by
  unfold create_country_summary
  rw [if_neg h]
  simp only [List.map_map]
  have h1 : ((fun kv => kv.2) ∘ fun c => (c, (entries.map (·.category)).count c)) =
      fun c => (entries.map (·.category)).count c := rfl
  rw [h1]
  have hperm := (List.perm_insertionSort catOrd (entries.map (·.category)).dedup).map
      (fun c => (entries.map (·.category)).count c)
  rw [hperm.sum_eq, sum_count_dedup, List.length_map]

/-- Witness for C9 on a one-entry dataset. -/
theorem c9_coverage_sum_witness :
    ([sampleEntry] : List StructuredEntry) ≠ [] ∧
    ((create_country_summary [sampleEntry]).categories_coverage.map (fun kv => kv.2)).sum =
      (create_country_summary [sampleEntry]).total_indicators_found :=
  ⟨by decide, c9_coverage_sum [sampleEntry] (by decide)⟩

/-- C2: for every search result whose snippet is the France population
fixture text (whatever its title, URL and source, and whatever the deep
fetch returns), extract_data_from_search_results produces a data point with
relevance score at least 1.5 (1.0 exact-match base plus the 0.5 country
bonus), with temporal data detected, and with a NumericFact of value
67000000.0 that is not a percentage among its numbers. -/
theorem c2_extract_france_datapoint (title url source : Str) (fetch : FetchOracle) :
    ∃ dp ∈ extract_data_from_search_results fetch
        [⟨title, url, str "France population: 67,000,000 in 2023", source⟩]
        (str "population") (str "France"),
      (3 / 2 : ℚ) ≤ dp.relevance_score ∧
      dp.has_temporal_data = true ∧
      ∃ f : NumericFact, NumEntry.fact f ∈ dp.numbers ∧
        f.value = 67000000 ∧ f.is_percent = false := by
  have hsa : (analyze_text_relevance (str "France population: 67,000,000 in 2023")
      (str "population")).1 = true := by decide
  have hscore : (analyze_text_relevance (str "France population: 67,000,000 in 2023")
      (str "population")).2.1 = 1 := by decide
  have hfact : ∃ f ∈ (analyze_text_relevance (str "France population: 67,000,000 in 2023")
      (str "population")).2.2, f.value = 67000000 ∧ f.is_percent = false := by decide
  have hsnonempty : (analyze_text_relevance (str "France population: 67,000,000 in 2023")
      (str "population")).2.2 ≠ [] := by decide
  have hcountry : subStr (lowerStr (str "France"))
      (lowerStr (title ++ str " - " ++ str "France population: 67,000,000 in 2023")) = true := by
    simp only [subStr, decide_eq_true_eq]
    rw [lowerStr_append]
    exact sub_of_sub_right _ _ _ (by decide)
  have htemp : hasYearToken
      (title ++ str " - " ++ str "France population: 67,000,000 in 2023") = true := by
    have hsplit : title ++ str " - " ++ str "France population: 67,000,000 in 2023" =
        (title ++ str " - " ++ str "France population: 67,000,000 in") ++ ' ' :: str "2023" := by
      have hsnip : str "France population: 67,000,000 in 2023" =
          str "France population: 67,000,000 in" ++ ' ' :: str "2023" := rfl
      rw [hsnip, ← List.append_assoc]
    rw [hasYearToken, hsplit]
    exact yearSearch_append _ none ' ' _ (by decide)
  simp only [extract_data_from_search_results, List.flatMap_cons, List.flatMap_nil,
    List.append_nil, resultDataPoints, hsa, Bool.or_true, if_true, hcountry, htemp]
  simp only [hsnonempty, ne_eq, not_false_eq_true, or_true, if_true, hscore]
  refine ⟨_, List.mem_cons_self _ _, ?_, rfl, ?_⟩
  · have hm := le_max_right (analyze_text_relevance title (str "population")).2.1 (1 : ℚ)
    dsimp only
    linarith
  · obtain ⟨f, hf, hv, hp⟩ := hfact
    exact ⟨f, List.mem_map_of_mem _ (List.mem_append_right _ hf), hv, hp⟩

/-- C7 counterexample: on a one-entry dataset whose only (hence
highest-relevance) entry has relevance_score 1.0, key_findings is empty, so
it does not consist of the up-to-5 highest-relevance entries of the
sequence: line 968 first filters to scores strictly above 1.5. -/
theorem c7_counterexample :
    (create_country_summary [sampleEntry]).total_indicators_found = 1 ∧
    (create_country_summary [sampleEntry]).key_findings = [] ∧
    KeyFinding.mk sampleEntry.category sampleEntry.indicator sampleEntry.description ∉
      (create_country_summary [sampleEntry]).key_findings := by
  decide

/-- C7 amended: key_findings consists of the (category, indicator,
description) projections of the up to 5 highest-relevance_score entries of
the subsequence with relevance_score strictly greater than 1.5: a selection
sel of length min(5, number of filtered entries), sorted by descending
relevance_score, such that sel together with the unselected remainder is a
permutation of the filtered subsequence and every selected entry scores at
least as high as every unselected one; when at most 5 filtered entries
exist, all of them appear.  Ties keep their prior sequence order in this
embedding; the pandas default sort leaves tie order unspecified. -/
theorem c7_amended (entries : List StructuredEntry) :
    ∃ sel rest : List StructuredEntry,
      (create_country_summary entries).key_findings =
        sel.map (fun e => KeyFinding.mk e.category e.indicator e.description) ∧
      (sel ++ rest).Perm (entries.filter (fun e => decide ((3 / 2 : ℚ) < e.relevance_score))) ∧
      sel.length = min 5 (entries.filter (fun e => decide ((3 / 2 : ℚ) < e.relevance_score))).length ∧
      List.Sorted scoreGe sel ∧
      (∀ a ∈ sel, ∀ b ∈ rest, b.relevance_score ≤ a.relevance_score) ∧
      ((entries.filter (fun e => decide ((3 / 2 : ℚ) < e.relevance_score))).length ≤ 5 →
        sel.Perm (entries.filter (fun e => decide ((3 / 2 : ℚ) < e.relevance_score)))) ∧
      (∀ e ∈ sel, e ∈ entries ∧ (3 / 2 : ℚ) < e.relevance_score) := by
  by_cases h : entries = []
  · subst h
    exact ⟨[], [], rfl, by simp, by simp, List.sorted_nil, by simp, by simp, by simp⟩
  · refine ⟨(List.insertionSort scoreGe
        (entries.filter (fun e => decide ((3 / 2 : ℚ) < e.relevance_score)))).take 5,
      (List.insertionSort scoreGe
        (entries.filter (fun e => decide ((3 / 2 : ℚ) < e.relevance_score)))).drop 5,
      ?_, ?_, ?_, ?_, ?_, ?_, ?_⟩
    · simp [create_country_summary, h]
    · rw [List.take_append_drop]
      exact List.perm_insertionSort scoreGe _
    · rw [List.length_take, (List.perm_insertionSort scoreGe _).length_eq]
    · exact List.Pairwise.sublist (List.take_sublist _ _) (List.sorted_insertionSort scoreGe _)
    · have hp := List.sorted_insertionSort scoreGe
        (entries.filter (fun e => decide ((3 / 2 : ℚ) < e.relevance_score)))
      rw [← List.take_append_drop 5 (List.insertionSort scoreGe _)] at hp
      exact fun a ha b hb => (List.pairwise_append.mp hp).2.2 a ha b hb
    · intro hle
      have hlen : (List.insertionSort scoreGe
          (entries.filter (fun e => decide ((3 / 2 : ℚ) < e.relevance_score)))).length ≤ 5 := by
        rw [(List.perm_insertionSort scoreGe _).length_eq]
        exact hle
      rw [List.take_of_length_le hlen]
      exact List.perm_insertionSort scoreGe _
    · intro e he
      have h1 := List.mem_of_mem_take he
      have h2 := (List.perm_insertionSort scoreGe _).mem_iff.mp h1
      have h3 := List.mem_filter.mp h2
      exact ⟨h3.1, by simpa using h3.2⟩

/-- C5 counterexample: harvesting the fixture page, whose only table has no
th cells so that its headers are borrowed from the first tr, yields a table
data point that does not contain the borrowed-header first row among its
rows: line 665 drops the first tr whenever headers resolved. -/
theorem c5_counterexample :
    ∃ dp ∈ extract_data_from_search_results borrowFetch [borrowResult]
        (str "population") (str "france"),
      dp.is_table = true ∧
      dp.table_headers = [str "Population", str "Year"] ∧
      dp.table_rows = [[str "67", str "2020"]] ∧
      [str "Population", str "Year"] ∉ dp.table_rows := by
  decide

/-- C5 amended: whenever the table harvester accepts a table, its captured
row set is the non-empty cell-text rows of all trs except the first, whether
the headers came from th cells or were borrowed from the first tr. -/
theorem c5_amended (statistic country resTitle url : Str) (t : HtmlTable) (dp : DataPoint)
    (h : harvestTable statistic country resTitle url t = some dp) :
    dp.table_headers = tableHeaders t ∧
    dp.table_rows = (t.rows.tail.map cellTexts).filter (fun r => r ≠ []) := by
  simp only [harvestTable] at h
  split_ifs at h with h1 h2 h3
  simp only [Option.some.injEq] at h
  subst h
  exact ⟨rfl, rfl⟩

/-- Witness for C5 amended on the borrowed-header fixture table. -/
theorem c5_amended_witness :
    ∃ dp, harvestTable (str "population") (str "france") (str "T") (str "u") borrowTable = some dp ∧
      dp.table_headers = tableHeaders borrowTable ∧
      dp.table_rows = (borrowTable.rows.tail.map cellTexts).filter (fun r => r ≠ []) := by
  cases hh : harvestTable (str "population") (str "france") (str "T") (str "u") borrowTable with
  | none => exact absurd hh (by decide)
  | some dp => exact ⟨dp, rfl, c5_amended _ _ _ _ _ _ hh⟩

/-- C6 counterexample: the flatten step applied to findings holding the
table data point harvested from the fixture page produces an entry whose
numerical_values are non-empty yet whose primary_value is a raw table-cell
string, not a NumericFact record: line 675 stores cell strings in the
numbers list of table data points. -/
theorem c6_counterexample :
    ∃ e ∈ flattenStructured tableCountryData,
      e.is_table = true ∧
      e.numerical_values ≠ [] ∧
      e.primary_value = some (NumEntry.cell (str "67")) ∧
      isFactEntry e.primary_value = false := by
  decide

/-- C6 amended: every flattened entry has primary_value equal to the head of
its numerical_values list when one exists and null otherwise; for
text-derived data points that head is a NumericFact, for table-derived ones
it is a raw cell string. -/
theorem c6_amended (cd : CountryData) (e : StructuredEntry)
    (h : e ∈ flattenStructured cd) :
    e.primary_value = e.numerical_values.head? ∧
    (e.numerical_values = [] ↔ e.primary_value = none) := by
  simp only [flattenStructured, List.mem_flatMap, List.mem_map] at h
  obtain ⟨cs, _, sd, _, dp, _, rfl⟩ := h
  refine ⟨rfl, ?_⟩
  simp [mkStructuredEntry, List.head?_eq_none_iff]

/-- Witness for C6 amended on the first entry of the fixture findings. -/
theorem c6_amended_witness :
    ∃ e ∈ flattenStructured tableCountryData,
      e.primary_value = e.numerical_values.head? := by
  cases hfl : flattenStructured tableCountryData with
  | nil => exact absurd hfl (by decide)
  | cons e rest =>
      have hm : e ∈ flattenStructured tableCountryData := by
        rw [hfl]
        exact List.mem_cons_self e rest
      exact ⟨e, List.mem_cons_self e rest, (c6_amended tableCountryData e hm).1⟩

/-- C1: on the code as written, search_country_data returns the error string
for every country and every behavior of the network oracles: the category
lookup at line 724 reads the never-assigned stat_to_category attribute during
the first statistic iteration, the resulting AttributeError escapes the
per-item handlers (which guard only narrower scopes), and the whole-function
handler at line 941 converts the run into an error string, so the
(StructuredEntry sequence, CountrySummary) pair and any partial results are
never returned. -/
theorem c1_always_error (o : Oracles) (startEngine timestamp country : Str) :
    search_country_data o startEngine timestamp country =
      Except.error (str "Error during research: AttributeError: stat_to_category") := rfl

/-- C10: on the empty dataset create_country_summary returns (totally, without
raising) zero indicators, empty coverage, no key findings and zero quality
percentages, and the coverage-sum equality holds there as well. -/
theorem c10_empty_summary :
    create_country_summary [] =
      { total_indicators_found := 0
      , categories_coverage := []
      , key_findings := []
      , data_quality := ⟨0, 0, 0⟩ } ∧
    ((create_country_summary []).categories_coverage.map (fun kv => kv.2)).sum =
      (create_country_summary []).total_indicators_found := by
  constructor
  · rfl
  · rfl

end SimpleAiApp
